import Mathlib

/-!
Shallow embedding of the intersection controller in
`backend/server.py` (module-level `simulation_state` plus the route
handlers `update_traffic`, `pause_simulation`, `resume_simulation`,
`set_manual_control`, `set_auto_mode`, `reset_simulation`, and the
helper `generate_ai_explanation`).

The two external capabilities are made explicit parameters:
the RandomSource draw of the four vehicle counts becomes a `Counts`
argument, and the ExplanationProvider call becomes an
`Option String` argument (`some r` = the provider returned `r`,
`none` = the provider raised, which the code catches).
The wall-clock timestamp becomes a `String` argument.
-/

/-- The closed direction enumeration `["north", "south", "east", "west"]`. -/
inductive Direction where
  | north
  | south
  | east
  | west
deriving DecidableEq, Repr, Fintype

/-- The lowercase string name of a direction, as the Python code stores it. -/
def Direction.toName : Direction → String
  | .north => "north"
  | .south => "south"
  | .east => "east"
  | .west => "west"

/-- The list `["north", "south", "east", "west"]` the code iterates over,
in its fixed insertion order. -/
def directionsList : List Direction :=
  [Direction.north, Direction.south, Direction.east, Direction.west]

/-- Recover a `Direction` from its string name; `none` for any string
outside the closed enumeration.  Mirrors the membership test
`control.direction not in ["north", "south", "east", "west"]`. -/
def parseDirection (s : String) : Option Direction :=
  if s = "north" then some Direction.north
  else if s = "south" then some Direction.south
  else if s = "east" then some Direction.east
  else if s = "west" then some Direction.west
  else none

/-- A signal color, `"green"` or `"red"` in the Python dicts. -/
inductive Signal where
  | green
  | red
deriving DecidableEq, Repr

/-- One per-direction entry of `simulation_state["traffic_data"]`:
`{"vehicles": n, "signal": s}`. -/
structure ApproachState where
  vehicles : Nat
  signal : Signal
deriving DecidableEq, Repr

/-- The four freshly drawn vehicle counts (`vehicle_counts` in
`update_traffic`), one per direction. -/
structure Counts where
  north : Nat
  south : Nat
  east : Nat
  west : Nat
deriving DecidableEq, Repr

/-- Dictionary lookup `vehicle_counts[direction]`. -/
def Counts.get (c : Counts) : Direction → Nat
  | .north => c.north
  | .south => c.south
  | .east => c.east
  | .west => c.west

/-- The `traffic_data` dictionary: exactly one entry per direction. -/
structure TrafficData where
  north : ApproachState
  south : ApproachState
  east : ApproachState
  west : ApproachState
deriving DecidableEq, Repr

/-- Dictionary lookup `traffic_data[direction]`. -/
def TrafficData.get (td : TrafficData) : Direction → ApproachState
  | .north => td.north
  | .south => td.south
  | .east => td.east
  | .west => td.west

/-- One stored insight record, as built in `update_traffic`. -/
structure Insight where
  timestamp : String
  decision : String
  explanation : String
  vehicle_counts : Counts
deriving DecidableEq, Repr

/-- The whole module-level `simulation_state` dictionary. -/
structure SimulationState where
  is_paused : Bool
  is_manual : Bool
  current_green : Direction
  traffic_data : TrafficData
  insights : List Insight
  cycle_count : Nat
deriving DecidableEq, Repr

/-- The initial value of `simulation_state` (server.py lines 33-45):
all vehicle counts 0, ALL four signals `"red"`, `current_green = "north"`,
both flags false, no insights, `cycle_count = 0`. -/
def initial_state : SimulationState :=
  { is_paused := false
    is_manual := false
    current_green := Direction.north
    traffic_data :=
      { north := { vehicles := 0, signal := Signal.red }
        south := { vehicles := 0, signal := Signal.red }
        east := { vehicles := 0, signal := Signal.red }
        west := { vehicles := 0, signal := Signal.red } }
    insights := []
    cycle_count := 0 }

/-- `generate_ai_explanation`: return the provider's response when the
call succeeds, and on any exception return the fallback f-string
populated with the chosen direction and its count. -/
def generate_ai_explanation (provider : Option String) (direction : Direction)
    (vehicle_count : Nat) : String :=
  match provider with
  | some response => response
  | none =>
      "Prioritizing " ++ direction.toName ++ " road with " ++
        toString vehicle_count ++ " vehicles due to highest congestion."

/-- `max(vehicle_counts, key=vehicle_counts.get)`: Python's `max` scans
the keys in insertion order `north, south, east, west`, keeping the
current best unless a later key's value is strictly greater, so the
first maximum in enumeration order wins. -/
def maxDirection (c : Counts) : Direction :=
  [Direction.south, Direction.east, Direction.west].foldl
    (fun best x => if c.get x > c.get best then x else best) Direction.north

/-- The first loop in `update_traffic`: overwrite every direction's
`vehicles` field with its freshly drawn count, keeping the signals. -/
def setVehicles (td : TrafficData) (c : Counts) : TrafficData :=
  { north := { td.north with vehicles := c.north }
    south := { td.south with vehicles := c.south }
    east := { td.east with vehicles := c.east }
    west := { td.west with vehicles := c.west } }

/-- The signal-assignment loop (`update_traffic` lines 133-137 and
`set_manual_control` lines 189-193): the chosen direction gets
`"green"`, every other direction gets `"red"`; vehicle counts are kept. -/
def setSignals (td : TrafficData) (m : Direction) : TrafficData :=
  { north := { td.north with signal := if Direction.north = m then Signal.green else Signal.red }
    south := { td.south with signal := if Direction.south = m then Signal.green else Signal.red }
    east := { td.east with signal := if Direction.east = m then Signal.green else Signal.red }
    west := { td.west with signal := if Direction.west = m then Signal.green else Signal.red } }

/-- The insight dictionary built in `update_traffic` lines 146-151:
timestamp, `"Green light: " + max_direction.upper()`, the (possibly
fallback) explanation, and the snapshot of all four counts. -/
def mkInsight (draw : Counts) (provider : Option String) (now : String) : Insight :=
  let max_direction := maxDirection draw
  let max_count := draw.get max_direction
  { timestamp := now
    decision := "Green light: " ++ max_direction.toName.toUpper
    explanation := generate_ai_explanation provider max_direction max_count
    vehicle_counts := draw }

/-- The value returned by `POST /api/traffic/update`: either the
skip message `"Simulation paused or in manual mode"` or the dict with
the new traffic data, the chosen direction and the stored insight. -/
inductive UpdateResult where
  | skipped
  | updated (traffic_data : TrafficData) (current_green : Direction) (insight : Insight)
deriving DecidableEq, Repr

/-- `update_traffic` (`POST /api/traffic/update`), the advance-cycle
operation.  `draw` stands for the four `random.randint(0, 50)` calls,
`provider` for the outcome of the `generate_ai_explanation` LLM call,
`now` for `datetime.now(timezone.utc).isoformat()`. -/
def update_traffic (s : SimulationState) (draw : Counts) (provider : Option String)
    (now : String) : SimulationState × UpdateResult :=
  if s.is_paused || s.is_manual then
    (s, UpdateResult.skipped)
  else
    let vehicle_counts := draw
    let td1 := setVehicles s.traffic_data vehicle_counts
    let max_direction := maxDirection vehicle_counts
    let td2 := setSignals td1 max_direction
    let insight := mkInsight draw provider now
    let inserted := insight :: s.insights
    let insights2 := if inserted.length > 10 then inserted.take 10 else inserted
    ({ s with
        traffic_data := td2
        current_green := max_direction
        cycle_count := s.cycle_count + 1
        insights := insights2 },
      UpdateResult.updated td2 max_direction insight)

/-- `pause_simulation` (`POST /api/traffic/pause`): set `is_paused` true. -/
def pause_simulation (s : SimulationState) : SimulationState :=
  { s with is_paused := true }

/-- `resume_simulation` (`POST /api/traffic/resume`): set `is_paused` false. -/
def resume_simulation (s : SimulationState) : SimulationState :=
  { s with is_paused := false }

/-- The value returned by `POST /api/traffic/manual`: either the
HTTP 400 `"Invalid direction"` rejection or success with the chosen
direction. -/
inductive ManualResult where
  | invalidDirection
  | ok (direction : Direction)
deriving DecidableEq, Repr

/-- `set_manual_control` (`POST /api/traffic/manual`): reject the input
string with HTTP 400 when it is outside the four-direction enumeration
(before touching any state), otherwise set `is_manual`, give that
direction green and all others red, and set `current_green`. -/
def set_manual_control (s : SimulationState) (direction : String) :
    SimulationState × ManualResult :=
  match parseDirection direction with
  | none => (s, ManualResult.invalidDirection)
  | some d =>
      ({ s with
          is_manual := true
          traffic_data := setSignals s.traffic_data d
          current_green := d },
        ManualResult.ok d)

/-- `set_auto_mode` (`POST /api/traffic/auto`): set `is_manual` false. -/
def set_auto_mode (s : SimulationState) : SimulationState :=
  { s with is_manual := false }

/-- `reset_simulation` (`POST /api/traffic/reset`): both flags false,
`current_green = "north"`, `cycle_count = 0`, empty insights, and every
direction reset to `{"vehicles": 0, "signal": "red"}`. -/
def reset_simulation (_s : SimulationState) : SimulationState :=
  { is_paused := false
    is_manual := false
    current_green := Direction.north
    traffic_data :=
      { north := { vehicles := 0, signal := Signal.red }
        south := { vehicles := 0, signal := Signal.red }
        east := { vehicles := 0, signal := Signal.red }
        west := { vehicles := 0, signal := Signal.red } }
    insights := []
    cycle_count := 0 }

/-- One mutating API call, with the external inputs an advance step
consumes made explicit. -/
inductive Op where
  | advance (draw : Counts) (provider : Option String) (now : String)
  | pause
  | resume
  | manual (direction : String)
  | auto
  | reset
deriving DecidableEq, Repr

/-- Apply one mutating operation to the state (discarding the HTTP
response body). -/
def applyOp (s : SimulationState) : Op → SimulationState
  | .advance draw provider now => (update_traffic s draw provider now).1
  | .pause => pause_simulation s
  | .resume => resume_simulation s
  | .manual direction => (set_manual_control s direction).1
  | .auto => set_auto_mode s
  | .reset => reset_simulation s

/-- Run a sequence of mutating operations from a starting state. -/
def run (s : SimulationState) (ops : List Op) : SimulationState :=
  ops.foldl applyOp s

/-- `n` consecutive `update_traffic` calls from the initial state, the
step-`i` draw, provider outcome and timestamp given by the three
functions. -/
def runAuto (draw : Nat → Counts) (provider : Nat → Option String)
    (now : Nat → String) : Nat → SimulationState
  | 0 => initial_state
  | n + 1 =>
      (update_traffic (runAuto draw provider now n) (draw n) (provider n) (now n)).1

/-- The mutually-exclusive-green invariant: every direction's signal is
green exactly when it is the `current_green` direction. -/
def oneGreen (s : SimulationState) : Prop :=
  ∀ d : Direction,
    (s.traffic_data.get d).signal =
      (if d = s.current_green then Signal.green else Signal.red)

instance (s : SimulationState) : Decidable (oneGreen s) :=
  Fintype.decidableForallFintype

/-- Modelled from the spec: the tie-break rule in its own words — the
selected direction is the first one, in the canonical enumeration order
north, south, east, west, whose count equals the maximum of the four
counts. -/
def specFirstMax (c : Counts) : Direction :=
  let m := max (max c.north c.south) (max c.east c.west)
  if c.north = m then Direction.north
  else if c.south = m then Direction.south
  else if c.east = m then Direction.east
  else Direction.west

/-! ## Helper lemmas -/

/-- Unfold the three-step fold inside `maxDirection` into nested ifs. -/
theorem maxDirection_unfold (c : Counts) :
    maxDirection c =
      (let b1 := if c.south > c.north then Direction.south else Direction.north
       let b2 := if c.get Direction.east > c.get b1 then Direction.east else b1
       if c.get Direction.west > c.get b2 then Direction.west else b2) := by
  simp only [maxDirection, List.foldl, Counts.get]

/-- Python's first-maximum-wins `max` agrees with the spec's
first-in-enumeration-order tie-break rule. -/
theorem maxDirection_eq_specFirstMax : ∀ c : Counts, maxDirection c = specFirstMax c := by
  intro c
  obtain ⟨n, s, e, w⟩ := c
  rw [maxDirection_unfold]
  simp only [specFirstMax, Counts.get]
  by_cases h1 : s > n
  · rw [if_pos h1]
    simp only [Counts.get]
    by_cases h2 : e > s
    · rw [if_pos h2]
      simp only [Counts.get]
      by_cases h3 : w > e
      · rw [if_pos h3]
        split_ifs <;> first | rfl | omega
      · rw [if_neg h3]
        split_ifs <;> first | rfl | omega
    · rw [if_neg h2]
      simp only [Counts.get]
      by_cases h3 : w > s
      · rw [if_pos h3]
        split_ifs <;> first | rfl | omega
      · rw [if_neg h3]
        split_ifs <;> first | rfl | omega
  · rw [if_neg h1]
    simp only [Counts.get]
    by_cases h2 : e > n
    · rw [if_pos h2]
      simp only [Counts.get]
      by_cases h3 : w > e
      · rw [if_pos h3]
        split_ifs <;> first | rfl | omega
      · rw [if_neg h3]
        split_ifs <;> first | rfl | omega
    · rw [if_neg h2]
      simp only [Counts.get]
      by_cases h3 : w > n
      · rw [if_pos h3]
        split_ifs <;> first | rfl | omega
      · rw [if_neg h3]
        split_ifs <;> first | rfl | omega

/-- The chosen direction carries a maximal count. -/
theorem maxDirection_ge : ∀ (c : Counts) (d : Direction), c.get d ≤ c.get (maxDirection c) := by
  intro c d
  obtain ⟨n, s, e, w⟩ := c
  rw [maxDirection_unfold]
  simp only [Counts.get]
  by_cases h1 : s > n <;>
    [rw [if_pos h1]; rw [if_neg h1]] <;>
    simp only [Counts.get] <;>
    cases d <;>
    split_ifs <;>
    simp only [Counts.get] at * <;>
    omega

/-- The insert-then-truncate step on the insight list always equals a
cons followed by `take 9`. -/
theorem insights_insert_trunc (x : Insight) (l : List Insight) :
    (if (x :: l).length > 10 then (x :: l).take 10 else (x :: l)) = x :: l.take 9 := by
  by_cases h : (x :: l).length > 10
  · rw [if_pos h, List.take_succ_cons]
  · rw [if_neg h]
    have hl : l.length ≤ 9 := by
      simp only [List.length_cons, gt_iff_lt, not_lt] at h
      omega
    rw [List.take_of_length_le hl]

/-- Per-direction view of `setVehicles`. -/
theorem setVehicles_get (td : TrafficData) (c : Counts) (d : Direction) :
    (setVehicles td c).get d = { vehicles := c.get d, signal := (td.get d).signal } := by
  cases d <;> rfl

/-- Per-direction view of `setSignals`. -/
theorem setSignals_get (td : TrafficData) (m : Direction) (d : Direction) :
    (setSignals td m).get d =
      { vehicles := (td.get d).vehicles
        signal := if d = m then Signal.green else Signal.red } := by
  cases d <;> cases m <;> rfl

/-- When neither flag is set, `update_traffic` performs the full
automatic decision step. -/
theorem update_traffic_not_skipped (s : SimulationState) (draw : Counts)
    (provider : Option String) (now : String)
    (h : (s.is_paused || s.is_manual) = false) :
    update_traffic s draw provider now =
      ({ s with
          traffic_data := setSignals (setVehicles s.traffic_data draw) (maxDirection draw)
          current_green := maxDirection draw
          cycle_count := s.cycle_count + 1
          insights := mkInsight draw provider now :: s.insights.take 9 },
        UpdateResult.updated
          (setSignals (setVehicles s.traffic_data draw) (maxDirection draw))
          (maxDirection draw)
          (mkInsight draw provider now)) := by
  simp only [update_traffic, h, Bool.false_eq_true, if_false]
  rw [insights_insert_trunc]

/-- When either flag is set, `update_traffic` returns the skip message
and the untouched state. -/
theorem update_traffic_skip (s : SimulationState) (draw : Counts)
    (provider : Option String) (now : String)
    (h : s.is_paused = true ∨ s.is_manual = true) :
    update_traffic s draw provider now = (s, UpdateResult.skipped) := by
  have hb : (s.is_paused || s.is_manual) = true := by
    rcases h with h | h <;> simp [h]
  simp only [update_traffic, hb, if_true]

/-- Parsing the canonical name of a direction recovers that direction. -/
theorem parseDirection_toName (d : Direction) : parseDirection d.toName = some d := by
  cases d <;> rfl

/-- A string outside the enumeration fails to parse. -/
theorem parseDirection_eq_none (dir : String)
    (h : dir ∉ ["north", "south", "east", "west"]) : parseDirection dir = none := by
  simp only [List.mem_cons, List.not_mem_nil, or_false, not_or] at h
  obtain ⟨h1, h2, h3, h4⟩ := h
  simp only [parseDirection, h1, h2, h3, h4, if_false]

/-- A valid direction name drives `set_manual_control` into the success
branch. -/
theorem set_manual_control_toName (s : SimulationState) (d : Direction) :
    set_manual_control s d.toName =
      ({ s with
          is_manual := true
          traffic_data := setSignals s.traffic_data d
          current_green := d },
        ManualResult.ok d) := by
  simp only [set_manual_control, parseDirection_toName]

/-- No single operation other than `reset` can decrease `cycle_count`. -/
theorem applyOp_cycle_le (s : SimulationState) (op : Op) (h : op ≠ Op.reset) :
    s.cycle_count ≤ (applyOp s op).cycle_count := by
  cases op with
  | advance draw provider now =>
      by_cases hb : (s.is_paused || s.is_manual) = true
      · have hs : s.is_paused = true ∨ s.is_manual = true := by
          rcases Bool.or_eq_true_iff.mp hb with h' | h'
          · exact Or.inl h'
          · exact Or.inr h'
        rw [applyOp, update_traffic_skip s draw provider now hs]
      · rw [applyOp,
          update_traffic_not_skipped s draw provider now (Bool.not_eq_true _ ▸ hb)]
        exact Nat.le_succ _
  | pause => exact Nat.le_refl _
  | resume => exact Nat.le_refl _
  | manual direction =>
      simp only [applyOp, set_manual_control]
      cases parseDirection direction <;> exact Nat.le_refl _
  | auto => exact Nat.le_refl _
  | reset => exact absurd rfl h

/-- `cycle_count` is monotone along any reset-free run. -/
theorem run_cycle_le (ops : List Op) :
    ∀ s : SimulationState, (∀ op ∈ ops, op ≠ Op.reset) →
      s.cycle_count ≤ (run s ops).cycle_count := by
  induction ops with
  | nil => intro s _; exact Nat.le_refl _
  | cons op rest ih =>
      intro s h
      have h1 : op ≠ Op.reset := h op (List.mem_cons_self op rest)
      have h2 : ∀ o ∈ rest, o ≠ Op.reset := fun o ho => h o (List.mem_cons_of_mem op ho)
      calc s.cycle_count ≤ (applyOp s op).cycle_count := applyOp_cycle_le s op h1
        _ ≤ (run (applyOp s op) rest).cycle_count := ih (applyOp s op) h2

/-- Every single operation keeps the insight list within the bound of 10. -/
theorem applyOp_insights_le (s : SimulationState) (op : Op)
    (h : s.insights.length ≤ 10) : (applyOp s op).insights.length ≤ 10 := by
  cases op with
  | advance draw provider now =>
      by_cases hb : (s.is_paused || s.is_manual) = true
      · have hs : s.is_paused = true ∨ s.is_manual = true := by
          rcases Bool.or_eq_true_iff.mp hb with h' | h'
          · exact Or.inl h'
          · exact Or.inr h'
        rw [applyOp, update_traffic_skip s draw provider now hs]
        exact h
      · rw [applyOp,
          update_traffic_not_skipped s draw provider now (Bool.not_eq_true _ ▸ hb)]
        simp only [List.length_cons]
        have := List.length_take_le 9 s.insights
        omega
  | pause => exact h
  | resume => exact h
  | manual direction =>
      simp only [applyOp, set_manual_control]
      cases parseDirection direction <;> exact h
  | auto => exact h
  | reset => simp [applyOp, reset_simulation]

/-- The 10-entry bound on the insight list is preserved by any run. -/
theorem run_insights_le (ops : List Op) :
    ∀ s : SimulationState, s.insights.length ≤ 10 →
      (run s ops).insights.length ≤ 10 := by
  induction ops with
  | nil => intro s h; exact h
  | cons op rest ih =>
      intro s h
      exact ih (applyOp s op) (applyOp_insights_le s op h)

/-- Consecutive automatic cycles never touch the two mode flags. -/
theorem runAuto_flags (draw : Nat → Counts) (provider : Nat → Option String)
    (now : Nat → String) (n : Nat) :
    (runAuto draw provider now n).is_paused = false ∧
      (runAuto draw provider now n).is_manual = false := by
  induction n with
  | zero => exact ⟨rfl, rfl⟩
  | succ n ih =>
      rw [runAuto, update_traffic_not_skipped _ _ _ _ (by rw [ih.1, ih.2]; rfl)]
      exact ⟨ih.1, ih.2⟩

/-- Closed form of the insight list after `n` automatic cycles: the
insights of steps `n-1, n-2, ...` newest first, truncated to 10. -/
theorem runAuto_insights (draw : Nat → Counts) (provider : Nat → Option String)
    (now : Nat → String) (n : Nat) :
    (runAuto draw provider now n).insights =
      (((List.range n).map fun i => mkInsight (draw i) (provider i) (now i)).reverse).take 10 := by
  induction n with
  | zero => rfl
  | succ n ih =>
      have hf := runAuto_flags draw provider now n
      rw [runAuto, update_traffic_not_skipped _ _ _ _ (by rw [hf.1, hf.2]; rfl)]
      simp only [ih, List.range_succ, List.map_append, List.reverse_append, List.map_cons,
        List.map_nil, List.reverse_cons, List.reverse_nil, List.nil_append,
        List.singleton_append, List.take_succ_cons, List.take_take]
      norm_num

/-! ## Claim theorems -/

/-- C1, counterexample: in the initial state no approach has a green
signal at all (all four are red while `current_green = north`), so the
exactly-one-green invariant fails there as stated. -/
theorem initial_state_not_oneGreen : ¬ oneGreen initial_state := by
  decide

/-- C1, amended: a non-skipped `update_traffic` and a valid
`set_manual_control` each establish exactly one green signal, named by
`current_green`; `pause_simulation`, `resume_simulation` and
`set_auto_mode` leave the signals and `current_green` untouched (so they
preserve the invariant once established); but in the initial state and
after every `reset_simulation` all four signals are red while
`current_green = north`. -/
theorem oneGreen_after_ops_amended :
    (∀ (s : SimulationState) (draw : Counts) (provider : Option String) (now : String),
      oneGreen ((update_traffic { s with is_paused := false, is_manual := false }
        draw provider now).1) ∧
      ((update_traffic { s with is_paused := false, is_manual := false }
        draw provider now).1).current_green = maxDirection draw) ∧
    (∀ (s : SimulationState) (d : Direction),
      oneGreen ((set_manual_control s (Direction.toName d)).1) ∧
      ((set_manual_control s (Direction.toName d)).1).current_green = d) ∧
    (∀ s : SimulationState,
      (pause_simulation s).traffic_data = s.traffic_data ∧
      (pause_simulation s).current_green = s.current_green ∧
      (resume_simulation s).traffic_data = s.traffic_data ∧
      (resume_simulation s).current_green = s.current_green ∧
      (set_auto_mode s).traffic_data = s.traffic_data ∧
      (set_auto_mode s).current_green = s.current_green) ∧
    (∀ s : SimulationState,
      (reset_simulation s).current_green = Direction.north ∧
      ∀ d : Direction, ((reset_simulation s).traffic_data.get d).signal = Signal.red) ∧
    (initial_state.current_green = Direction.north ∧
      ∀ d : Direction, ((initial_state.traffic_data.get d).signal = Signal.red)) := by
  refine ⟨?_, ?_, ?_, ?_, ?_⟩
  · intro s draw provider now
    rw [update_traffic_not_skipped
      { s with is_paused := false, is_manual := false } draw provider now rfl]
    refine ⟨?_, rfl⟩
    intro d
    simp only [setSignals_get]
  · intro s d
    rw [set_manual_control_toName]
    refine ⟨?_, rfl⟩
    intro d'
    simp only [setSignals_get]
  · intro s
    exact ⟨rfl, rfl, rfl, rfl, rfl, rfl⟩
  · intro s
    exact ⟨rfl, fun d => by cases d <;> rfl⟩
  · exact ⟨rfl, fun d => by cases d <;> rfl⟩

/-- C2, counterexample: resetting (here from the initial state) leaves
the north approach red, not green as the claim states. -/
theorem reset_north_signal_red :
    ((reset_simulation initial_state).traffic_data.get Direction.north).signal ≠
      Signal.green := by
  decide

/-- C2, amended: from every prior state `reset_simulation` yields
exactly the literal initial configuration of the code: all counts 0,
ALL four signals red, `current_green = north`, both flags false,
`cycle_count = 0`, empty insights; it never fails (it is total). -/
theorem reset_simulation_law :
    ∀ s : SimulationState,
      reset_simulation s =
        { is_paused := false
          is_manual := false
          current_green := Direction.north
          traffic_data :=
            { north := { vehicles := 0, signal := Signal.red }
              south := { vehicles := 0, signal := Signal.red }
              east := { vehicles := 0, signal := Signal.red }
              west := { vehicles := 0, signal := Signal.red } }
          insights := []
          cycle_count := 0 } :=
  fun _ => rfl

/-- C3: the direction selected by the decision step is the first
direction, in the fixed order north, south, east, west, whose count is
maximal (so it carries a maximal count, and ties go to the earliest
direction); in particular a non-skipped `update_traffic` with drawn
counts north 30, south 30, east 10, west 5 sets `current_green` to
north. -/
theorem advanceCycle_picks_first_max :
    (∀ c : Counts, maxDirection c = specFirstMax c) ∧
    (∀ (c : Counts) (d : Direction), c.get d ≤ c.get (maxDirection c)) ∧
    (∀ (s : SimulationState) (provider : Option String) (now : String),
      ((update_traffic { s with is_paused := false, is_manual := false }
        (Counts.mk 30 30 10 5) provider now).1).current_green = Direction.north) := by
  refine ⟨maxDirection_eq_specFirstMax, maxDirection_ge, ?_⟩
  intro s provider now
  rw [update_traffic_not_skipped
    { s with is_paused := false, is_manual := false } (Counts.mk 30 30 10 5) provider now rfl]
  rfl

/-- C4: whenever `is_paused` or `is_manual` is set, `update_traffic`
returns the skip message and leaves the whole state unchanged. -/
theorem advanceCycle_skip_noop :
    ∀ (s : SimulationState) (draw : Counts) (provider : Option String) (now : String),
      s.is_paused = true ∨ s.is_manual = true →
      update_traffic s draw provider now = (s, UpdateResult.skipped) :=
  fun s draw provider now h => update_traffic_skip s draw provider now h

/-- C4, witness: the skip law applied to the paused initial state. -/
theorem advanceCycle_skip_noop_witness :
    update_traffic { initial_state with is_paused := true } (Counts.mk 1 2 3 4) none "t" =
      ({ initial_state with is_paused := true }, UpdateResult.skipped) :=
  advanceCycle_skip_noop { initial_state with is_paused := true }
    (Counts.mk 1 2 3 4) none "t" (Or.inl rfl)

/-- C5: when the explanation provider fails, the non-skipped
`update_traffic` still returns normally (the failure is swallowed:
the result is the ordinary updated outcome, not an error), and the
stored insight's explanation is the literal fallback template populated
with the chosen direction's name and its count. -/
theorem provider_failure_fallback :
    ∀ (s : SimulationState) (draw : Counts) (now : String),
      ((update_traffic { s with is_paused := false, is_manual := false }
          draw none now).2 =
        UpdateResult.updated
          (setSignals (setVehicles s.traffic_data draw) (maxDirection draw))
          (maxDirection draw)
          (mkInsight draw none now)) ∧
      (mkInsight draw none now).explanation =
        "Prioritizing " ++ (maxDirection draw).toName ++ " road with " ++
          toString (draw.get (maxDirection draw)) ++
          " vehicles due to highest congestion." := by
  intro s draw now
  constructor
  · rw [update_traffic_not_skipped
      { s with is_paused := false, is_manual := false } draw none now rfl]
  · rfl

/-- C6: every non-skipped `update_traffic` prepends exactly one insight
(newest first) and truncates the history to at most 10; along every
operation sequence from the initial state the history length stays at
most 10; after `n` automatic cycles the history is exactly the `n`
step insights newest first truncated to 10, so after `n ≥ 10` cycles it
has exactly 10 entries (the 10 most recent) and older entries are gone. -/
theorem insights_bounded_history :
    (∀ (s : SimulationState) (draw : Counts) (provider : Option String) (now : String),
      ((update_traffic { s with is_paused := false, is_manual := false }
        draw provider now).1).insights =
        mkInsight draw provider now :: s.insights.take 9) ∧
    (∀ ops : List Op, (run initial_state ops).insights.length ≤ 10) ∧
    (∀ (draw : Nat → Counts) (provider : Nat → Option String) (now : Nat → String) (n : Nat),
      (runAuto draw provider now n).insights =
        (((List.range n).map fun i => mkInsight (draw i) (provider i) (now i)).reverse).take 10) ∧
    (∀ (draw : Nat → Counts) (provider : Nat → Option String) (now : Nat → String) (n : Nat),
      10 ≤ n → (runAuto draw provider now n).insights.length = 10) := by
  refine ⟨?_, ?_, runAuto_insights, ?_⟩
  · intro s draw provider now
    rw [update_traffic_not_skipped
      { s with is_paused := false, is_manual := false } draw provider now rfl]
  · intro ops
    exact run_insights_le ops initial_state (by decide)
  · intro draw provider now n hn
    rw [runAuto_insights]
    simp only [List.length_take, List.length_reverse, List.length_map, List.length_range]
    omega

/-- C6, witness: ten automatic cycles from the initial state leave
exactly ten stored insights. -/
theorem insights_bounded_history_witness :
    (runAuto (fun _ => Counts.mk 1 2 3 4) (fun _ => none) (fun _ => "t") 10).insights.length
      = 10 :=
  insights_bounded_history.2.2.2 (fun _ => Counts.mk 1 2 3 4) (fun _ => none)
    (fun _ => "t") 10 (by decide)

/-- C7: an input string outside the four-direction enumeration makes
`set_manual_control` return the HTTP 400 rejection with the state
unchanged. -/
theorem setManual_invalid_rejected :
    ∀ (s : SimulationState) (dir : String),
      dir ∉ ["north", "south", "east", "west"] →
      set_manual_control s dir = (s, ManualResult.invalidDirection) := by
  intro s dir h
  simp only [set_manual_control, parseDirection_eq_none dir h]

/-- C7, witness: the rejection law applied to the string "northeast"
in the initial state. -/
theorem setManual_invalid_rejected_witness :
    ("northeast" ∉ ["north", "south", "east", "west"]) ∧
      set_manual_control initial_state "northeast" =
        (initial_state, ManualResult.invalidDirection) :=
  ⟨by decide, setManual_invalid_rejected initial_state "northeast" (by decide)⟩

/-- C8: for every valid direction and every prior state,
`set_manual_control` succeeds, sets `is_manual`, gives exactly that
direction green (all others red, counts kept), sets `current_green`,
and touches nothing else; from the initial state, manual east yields
`current_green = east`, east green, manual mode on, `cycle_count`
still 0. -/
theorem setManual_valid_behavior :
    (∀ (s : SimulationState) (d : Direction),
      set_manual_control s (Direction.toName d) =
        ({ s with
            is_manual := true
            traffic_data := setSignals s.traffic_data d
            current_green := d },
          ManualResult.ok d)) ∧
    (∀ (td : TrafficData) (d d' : Direction),
      (setSignals td d).get d' =
        { vehicles := (td.get d').vehicles
          signal := if d' = d then Signal.green else Signal.red }) ∧
    ((set_manual_control initial_state "east").1.current_green = Direction.east ∧
      ((set_manual_control initial_state "east").1.traffic_data.get Direction.east).signal =
        Signal.green ∧
      oneGreen (set_manual_control initial_state "east").1 ∧
      (set_manual_control initial_state "east").1.is_manual = true ∧
      (set_manual_control initial_state "east").1.cycle_count = 0 ∧
      (set_manual_control initial_state "east").1.insights = []) :=
  ⟨set_manual_control_toName, setSignals_get,
    by decide, by decide, by decide, by decide, by decide, by decide⟩

/-- C9, counterexample: one successful cycle followed by a reset makes
`cycle_count` strictly decrease (1 to 0), so across sequences that
contain `reset` it neither only increases nor changes only via
non-skipped `update_traffic`. -/
theorem cycleCount_decreases_on_reset :
    (run initial_state [Op.advance (Counts.mk 30 30 10 5) none "t0", Op.reset]).cycle_count <
      (run initial_state [Op.advance (Counts.mk 30 30 10 5) none "t0"]).cycle_count := by
  decide

/-- C9, amended: along every reset-free operation sequence
`cycle_count` never decreases; a non-skipped `update_traffic` adds
exactly 1, a skipped one adds nothing, and `pause_simulation`,
`resume_simulation`, `set_manual_control` and `set_auto_mode` leave it
unchanged; `reset_simulation` sets it back to 0. -/
theorem cycleCount_monotone_amended :
    (∀ (s : SimulationState) (draw : Counts) (provider : Option String) (now : String),
      ((update_traffic { s with is_paused := false, is_manual := false }
        draw provider now).1).cycle_count = s.cycle_count + 1) ∧
    (∀ (s : SimulationState) (draw : Counts) (provider : Option String) (now : String),
      s.is_paused = true ∨ s.is_manual = true →
      ((update_traffic s draw provider now).1).cycle_count = s.cycle_count) ∧
    (∀ s : SimulationState, (pause_simulation s).cycle_count = s.cycle_count) ∧
    (∀ s : SimulationState, (resume_simulation s).cycle_count = s.cycle_count) ∧
    (∀ (s : SimulationState) (dir : String),
      ((set_manual_control s dir).1).cycle_count = s.cycle_count) ∧
    (∀ s : SimulationState, (set_auto_mode s).cycle_count = s.cycle_count) ∧
    (∀ s : SimulationState, (reset_simulation s).cycle_count = 0) ∧
    (∀ (s : SimulationState) (ops : List Op),
      (∀ op ∈ ops, op ≠ Op.reset) → s.cycle_count ≤ (run s ops).cycle_count) := by
  refine ⟨?_, ?_, fun _ => rfl, fun _ => rfl, ?_, fun _ => rfl, fun _ => rfl,
    fun s ops h => run_cycle_le ops s h⟩
  · intro s draw provider now
    rw [update_traffic_not_skipped
      { s with is_paused := false, is_manual := false } draw provider now rfl]
  · intro s draw provider now h
    rw [update_traffic_skip s draw provider now h]
  · intro s dir
    simp only [set_manual_control]
    cases parseDirection dir <;> rfl

/-- C9, witness: the amended law applied at concrete inputs — a skipped
cycle in manual mode keeps the count, and a reset-free two-operation run
never lowers it. -/
theorem cycleCount_monotone_amended_witness :
    (((update_traffic { initial_state with is_manual := true }
        (Counts.mk 1 1 1 1) none "t").1).cycle_count =
      ({ initial_state with is_manual := true } : SimulationState).cycle_count) ∧
      initial_state.cycle_count ≤
        (run initial_state [Op.pause, Op.advance (Counts.mk 1 1 1 1) none "t"]).cycle_count :=
  ⟨cycleCount_monotone_amended.2.1 { initial_state with is_manual := true }
      (Counts.mk 1 1 1 1) none "t" (Or.inr rfl),
    cycleCount_monotone_amended.2.2.2.2.2.2.2 initial_state
      [Op.pause, Op.advance (Counts.mk 1 1 1 1) none "t"] (by decide)⟩

/-- C10: `pause_simulation` and `resume_simulation` change only the
`is_paused` flag and `set_auto_mode` changes only the `is_manual` flag:
all approaches, `current_green`, `cycle_count`, `insights`, and the
respective other flag are untouched — in particular resuming does not
leave manual mode and switching to automatic does not unpause. -/
theorem pause_resume_auto_frame :
    ∀ s : SimulationState,
      pause_simulation s = { s with is_paused := true } ∧
      resume_simulation s = { s with is_paused := false } ∧
      set_auto_mode s = { s with is_manual := false } ∧
      (resume_simulation s).is_manual = s.is_manual ∧
      (set_auto_mode s).is_paused = s.is_paused ∧
      (pause_simulation s).is_manual = s.is_manual ∧
      (pause_simulation s).traffic_data = s.traffic_data ∧
      (pause_simulation s).current_green = s.current_green ∧
      (pause_simulation s).cycle_count = s.cycle_count ∧
      (pause_simulation s).insights = s.insights :=
  fun _ => ⟨rfl, rfl, rfl, rfl, rfl, rfl, rfl, rfl, rfl, rfl⟩
